import Mathlib

/-!
# Verification of the appointment-booking conversation engine

Shallow embedding of `google_oauth.py` (KabilashCSE/Appointment-Booking-Bot):
the conversation state machine `conversational_flow`, the stage derivation
`get_conversation_stage`, the datetime parser `parse_date_time`, and the
calendar gateway (`authenticate_google` / `create_event`).

File-system and network effects of the gateway are made explicit through an
environment record `AuthEnv` that fixes the outcome of each external
interaction (presence of `token.pickle` / `credentials.json`, the result of
the token refresh, of the interactive OAuth flow, and of the calendar
insert call); the Python functions then become pure functions of that
environment.  Python exceptions become `Except String`, carrying the
exception text, and Python lists of `(role, message)` pairs become
`List (Speaker × String)`.
-/

set_option maxRecDepth 10000

/-- Speaker tag of a transcript turn: the Python code uses the strings
"User" and "Bot". -/
inductive Speaker where
  | User : Speaker
  | Bot : Speaker
deriving DecidableEq, Repr

/-- A transcript turn `(role, message)`. -/
abbrev Turn := Speaker × String

/-- The conversation history: an ordered list of turns. -/
abbrev Transcript := List Turn

/-- Python `str.lower()` (ASCII case mapping). -/
def pyLower (s : String) : String := ⟨s.toList.map Char.toLower⟩

/-- Python `str.upper()` (ASCII case mapping). -/
def pyUpper (s : String) : String := ⟨s.toList.map Char.toUpper⟩

/-- Python `str.strip()`: remove leading and trailing whitespace. -/
def pyStrip (s : String) : String :=
  ⟨((s.toList.dropWhile Char.isWhitespace).reverse.dropWhile
      Char.isWhitespace).reverse⟩

/-- Python `s.split('-')`: split on every hyphen, keeping empty tokens. -/
def pySplitHyphen (s : String) : List String :=
  (s.toList.splitOn '-').map List.asString

/-- Python substring test `needle in hay` on character lists. -/
def listInfix (needle hay : List Char) : Bool :=
  match hay with
  | [] => needle.isEmpty
  | c :: t => needle.isPrefixOf (c :: t) || listInfix needle t

/-- Python substring test `sub in s` for strings. -/
def strContains (s sub : String) : Bool :=
  listInfix sub.toList s.toList

/-- Python `str.isdigit()`: true iff the string is non-empty and every
character is a digit (restricted here to ASCII digits). -/
def pyIsDigit (s : String) : Bool :=
  !s.isEmpty && s.toList.all Char.isDigit

/-- Numeric value of a list of ASCII digit characters. -/
def digitsToNat (ds : List Char) : Nat :=
  ds.foldl (fun acc c => acc * 10 + (c.toNat - '0'.toNat)) 0

/-- Python `int(s)`: optional surrounding whitespace, an optional single
sign, then one or more ASCII digits; anything else raises
`ValueError("invalid literal for int() with base 10: '<s>'")`. -/
def pyInt (s : String) : Except String Int :=
  let chars := (pyStrip s).toList
  let signedDigits : Int × List Char :=
    match chars with
    | '+' :: rest => (1, rest)
    | '-' :: rest => (-1, rest)
    | rest => (1, rest)
  if !signedDigits.2.isEmpty && signedDigits.2.all Char.isDigit then
    Except.ok (signedDigits.1 * Int.ofNat (digitsToNat signedDigits.2))
  else
    Except.error ("invalid literal for int() with base 10: \x27" ++ s ++ "\x27")

/-- Value of an ASCII digit character. -/
def digitVal (c : Char) : Nat := c.toNat - '0'.toNat

/-- The `%I` directive of `datetime.strptime`: a 12-hour-clock hour,
matching the CPython regular expression `1[0-2]|0[1-9]|[1-9]` (the
alternatives are mutually exclusive here because the hour is always
followed by a literal `:`). Returns the hour and the remaining input. -/
def parseHourI : List Char → Option (Nat × List Char)
  | '1' :: c :: rest =>
    if '0' ≤ c ∧ c ≤ '2' then some (10 + digitVal c, rest)
    else some (1, c :: rest)
  | '0' :: c :: rest =>
    if '1' ≤ c ∧ c ≤ '9' then some (digitVal c, rest) else none
  | c :: rest =>
    if '1' ≤ c ∧ c ≤ '9' then some (digitVal c, rest) else none
  | [] => none

/-- The `%M` directive of `datetime.strptime`: a minute matching the
CPython regular expression `[0-5]\d|\d` (when two digits follow and the
first is 6-9, neither alternative can be completed because the minute is
always followed by whitespace). Returns the minute and the remaining
input. -/
def parseMinute : List Char → Option (Nat × List Char)
  | c1 :: c2 :: rest =>
    if c1.isDigit ∧ c2.isDigit then
      if '0' ≤ c1 ∧ c1 ≤ '5' then some (10 * digitVal c1 + digitVal c2, rest)
      else none
    else if c1.isDigit then some (digitVal c1, c2 :: rest)
    else none
  | [c1] => if c1.isDigit then some (digitVal c1, []) else none
  | [] => none

/-- A whitespace run in a `strptime` format string matches one or more
whitespace characters (`\s+`). -/
def skipWhitespace1 : List Char → Option (List Char)
  | c :: rest =>
    if c.isWhitespace then some (rest.dropWhile Char.isWhitespace) else none
  | [] => none

/-- `datetime.strptime(s, "%I:%M %p")` on an already stripped and
upper-cased string, as the two call sites in the source prepare it.
Returns `(hour24, minute)` on success, `none` where Python raises
`ValueError`.  CPython requires the whole string to be consumed
("unconverted data remains" otherwise) and converts the 12-hour value
with the meridiem: AM maps hour 12 to 0, PM adds 12 except for hour 12. -/
def pyStrptimeIMp (s : String) : Option (Nat × Nat) :=
  match parseHourI s.toList with
  | none => none
  | some (hI, rest1) =>
    match rest1 with
    | ':' :: rest2 =>
      match parseMinute rest2 with
      | none => none
      | some (minute, rest3) =>
        match skipWhitespace1 rest3 with
        | none => none
        | some rest4 =>
          match rest4 with
          | ['A', 'M'] => some (if hI = 12 then 0 else hI, minute)
          | ['P', 'M'] => some (if hI = 12 then 12 else hI + 12, minute)
          | _ => none
    | _ => none

/-- A Python `datetime` value as constructed by `parse_date_time`
(seconds and microseconds are always zero there). -/
structure PyDateTime where
  year : Int
  month : Int
  day : Int
  hour : Nat
  minute : Nat
deriving DecidableEq, Repr

/-- Python `datetime` comparison: lexicographic on
(year, month, day, hour, minute). -/
def pyDateTimeLE (a b : PyDateTime) : Bool :=
  if a.year = b.year then
    if a.month = b.month then
      if a.day = b.day then
        if a.hour = b.hour then decide (a.minute ≤ b.minute)
        else decide (a.hour ≤ b.hour)
      else decide (a.day ≤ b.day)
    else decide (a.month ≤ b.month)
  else decide (a.year ≤ b.year)

/-- Gregorian leap-year rule used by Python `datetime`. -/
def isLeapYear (y : Int) : Bool :=
  (y % 4 == 0 && y % 100 != 0) || y % 400 == 0

/-- Number of days in a month, as Python `datetime` checks it. -/
def daysInMonth (y m : Int) : Int :=
  if m = 2 then (if isLeapYear y then 29 else 28)
  else if m = 4 ∨ m = 6 ∨ m = 9 ∨ m = 11 then 30
  else 31

/-- The range checks the `datetime(year, month, day, ...)` constructor
performs on the date fields, with the CPython error messages; `none`
means the fields are valid. -/
def checkDateFields (year month day : Int) : Option String :=
  if ¬(1 ≤ year ∧ year ≤ 9999) then
    some ("year " ++ toString year ++ " is out of range")
  else if ¬(1 ≤ month ∧ month ≤ 12) then some "month must be in 1..12"
  else if ¬(1 ≤ day ∧ day ≤ daysInMonth year month) then
    some "day is out of range for month"
  else none

/-- The Python `datetime(year, month, day, hour, minute)` constructor:
validates the fields (raising `ValueError` with the CPython message on
failure) and otherwise builds the value. -/
def mkDatetime (year month day : Int) (hour minute : Nat) :
    Except String PyDateTime :=
  match checkDateFields year month day with
  | some e => Except.error e
  | none =>
    if ¬(hour ≤ 23) then Except.error "hour must be in 0..23"
    else if ¬(minute ≤ 59) then Except.error "minute must be in 0..59"
    else Except.ok ⟨year, month, day, hour, minute⟩

/-- `parse_date_time(date_str, time_str)` of the source: split the date
on `-` and require exactly 3 tokens, convert them with `int` in order
(day, month, year), parse the time with `strptime("%I:%M %p")`, then
build the `datetime`.  Every failure is a `ValueError` whose message is
re-raised unchanged by the `except ValueError` wrapper. -/
def parse_date_time (date_str time_str : String) : Except String PyDateTime :=
  let date_parts := pySplitHyphen date_str
  if date_parts.length ≠ 3 then Except.error "Date must be in DD-MM-YYYY format"
  else
    match pyInt (date_parts.getD 0 "") with
    | Except.error e => Except.error e
    | Except.ok day =>
      match pyInt (date_parts.getD 1 "") with
      | Except.error e => Except.error e
      | Except.ok month =>
        match pyInt (date_parts.getD 2 "") with
        | Except.error e => Except.error e
        | Except.ok year =>
          match pyStrptimeIMp (pyUpper (pyStrip time_str)) with
          | none => Except.error "Time must be in HH:MM AM/PM format"
          | some (hour, minute) => mkDatetime year month day hour minute

/-- A cached credential object as `authenticate_google` inspects it:
its `valid` / `expired` flags, whether it has a refresh token, and
whether `creds.refresh(Request())` would succeed. -/
structure Creds where
  valid : Bool
  expired : Bool
  hasRefreshToken : Bool
  refreshOk : Bool

/-- The calendar service handle returned by `build(...)`; it carries the
outcome of the one API call the program makes
(`events().insert(...).execute()`). -/
structure Service where
  insertOutcome : Except String Unit

/-- Outcomes of the external interactions of `authenticate_google` and
`create_event`: `tokenPickle` is `none` when `token.pickle` does not
exist, `some none` when unpickling it raises, `some (some c)` when it
loads credentials `c`; `flowOutcome` is the result of the interactive
OAuth flow; `insertOutcome` that of the calendar insert call. -/
structure AuthEnv where
  tokenPickle : Option (Option Creds)
  credentialsJsonExists : Bool
  flowOutcome : Except String Creds
  insertOutcome : Except String Unit

/-- `authenticate_google()` of the source.  Loads and, if needed,
refreshes the cached credential; with no usable credential it requires
`credentials.json` (raising `FileNotFoundError` when absent) and runs the
interactive flow.  The outer `except Exception` wraps any failure text as
`"Authentication failed: " + str(e)`.  The `os.remove`/`pickle.dump` file
mutations have no further effect within one call and are not modelled. -/
def authenticate_google (env : AuthEnv) : Except String Service :=
  let creds : Option Creds :=
    match env.tokenPickle with
    | none => none
    | some none => none
    | some (some c) =>
      if !c.valid then
        if c.expired && c.hasRefreshToken then
          if c.refreshOk then some c else none
        else none
      else some c
  match creds with
  | some _ => Except.ok ⟨env.insertOutcome⟩
  | none =>
    if !env.credentialsJsonExists then
      Except.error "Authentication failed: credentials.json file not found. Please download it from Google Cloud Console."
    else
      match env.flowOutcome with
      | Except.error e => Except.error ("Authentication failed: " ++ e)
      | Except.ok _ => Except.ok ⟨env.insertOutcome⟩

/-- `create_event(service, ...)` of the source: on success of the insert
call returns the success message, on failure raises an exception whose
message wraps the insert error and, for an `invalid_grant` failure, adds
the re-authentication hint (the `token.pickle` removal side effect is not
modelled). -/
def create_event (service : Service) (event_name : String)
    (_start_time _end_time : PyDateTime)
    (_time_zone : String := "Asia/Kolkata") : Except String String :=
  match service.insertOutcome with
  | Except.ok _ => Except.ok ("Event \"" ++ event_name ++ "\" created successfully!")
  | Except.error e =>
    let error_msg := "Failed to create event: " ++ e
    let error_msg :=
      if strContains e "invalid_grant" then
        error_msg ++ "\nPlease restart the application to re-authenticate."
      else error_msg
    Except.error error_msg

/-- The combined gateway interaction of the stage-5 `try` block:
`service = authenticate_google()` followed by
`create_event(service, event_name, start_time, end_time)`; an exception
from either call funnels to the same `except Exception` handler. -/
def gateway_book (env : AuthEnv) (event_name : String)
    (start_time end_time : PyDateTime) : Except String String :=
  match authenticate_google env with
  | Except.error e => Except.error e
  | Except.ok service => create_event service event_name start_time end_time

/-- The user messages of a history, in order:
`[msg for role, msg in history if role == "User"]`. -/
def userMsgs (history : Transcript) : List String :=
  (history.filter (fun t => t.1 = Speaker.User)).map (fun t => t.2)

/-- `get_conversation_stage(history)` of the source: 0 when there are no
user messages, else their count. -/
def get_conversation_stage (history : Transcript) : Nat :=
  let user_messages := userMsgs history
  if user_messages.isEmpty then 0 else user_messages.length

/-- The three case-insensitive reset keywords. -/
def RESET_KEYWORDS : List String := ["restart", "start over", "reset"]

/-- `conversational_flow(history, user_input)` of the source.  Empty
input is a no-op; a reset keyword clears the history and re-greets;
otherwise the user turn is appended and the code dispatches on the
resulting stage.  `history.pop()` (removal of the just-appended user
turn) is `dropLast`. -/
def conversational_flow (env : AuthEnv) (history : Transcript)
    (user_input : String) : Transcript :=
  if user_input = "" then history
  else if RESET_KEYWORDS.contains (pyLower user_input) then
    [(Speaker.Bot, "Conversation restarted. Hi! How may I assist you?")]
  else
    let history1 := history ++ [(Speaker.User, user_input)]
    let stage := get_conversation_stage history1
    if stage = 1 then
      if strContains (pyLower user_input) "appointment" ||
          strContains (pyLower user_input) "book" then
        history1 ++ [(Speaker.Bot, "What is the purpose of the appointment?")]
      else
        history1.dropLast ++
          [(Speaker.Bot, "I can help you book an appointment. Please say \x27Book an appointment\x27 to start.")]
    else if stage = 2 then
      history1 ++
        [(Speaker.Bot, "Great! You want to create an event for \x27" ++ user_input ++
          "\x27. What is the date? (DD-MM-YYYY)")]
    else if stage = 3 then
      let date_parts := pySplitHyphen user_input
      if date_parts.length != 3 || !date_parts.all pyIsDigit then
        history1.dropLast ++
          [(Speaker.Bot, "Invalid date format: Date must be in DD-MM-YYYY format. Please enter the date in DD-MM-YYYY format.")]
      else
        history1 ++ [(Speaker.Bot, "What is the start time? (HH:MM AM/PM)")]
    else if stage = 4 then
      match pyStrptimeIMp (pyUpper (pyStrip user_input)) with
      | some _ => history1 ++ [(Speaker.Bot, "What is the end time? (HH:MM AM/PM)")]
      | none =>
        history1.dropLast ++
          [(Speaker.Bot, "Invalid time format. Please enter the time in HH:MM AM/PM format (e.g., 02:30 PM).")]
    else if stage = 5 then
      let users := userMsgs history1
      let event_name := users.getD 1 ""
      let date_str := users.getD 2 ""
      let start_time_str := users.getD 3 ""
      match parse_date_time date_str start_time_str with
      | Except.error e =>
        history1.dropLast ++
          [(Speaker.Bot, "Invalid time: " ++ e ++ ". Please enter a valid end time in HH:MM AM/PM format.")]
      | Except.ok start_time =>
        match parse_date_time date_str user_input with
        | Except.error e =>
          history1.dropLast ++
            [(Speaker.Bot, "Invalid time: " ++ e ++ ". Please enter a valid end time in HH:MM AM/PM format.")]
        | Except.ok end_time =>
          if pyDateTimeLE end_time start_time then
            history1.dropLast ++
              [(Speaker.Bot, "Invalid time: End time must be after start time. Please enter a valid end time in HH:MM AM/PM format.")]
          else
            match gateway_book env event_name start_time end_time with
            | Except.ok result =>
              history1 ++ [(Speaker.Bot, result),
                (Speaker.Bot, "Do you need to book any other appointments? (yes/no)")]
            | Except.error e =>
              history1 ++ [(Speaker.Bot, "Error: " ++ e)]
    else if stage = 6 then
      if pyLower user_input = "yes" then
        [(Speaker.Bot, "Hi! How may I assist you?")]
      else if pyLower user_input = "no" then
        history1 ++ [(Speaker.Bot, "Thank you! Have a nice day.")]
      else
        history1.dropLast ++ [(Speaker.Bot, "Please answer with \x27yes\x27 or \x27no\x27.")]
    else
      history1

/-- Number of Bot turns in a transcript. -/
def botCount (history : Transcript) : Nat :=
  (history.filter (fun t => t.1 = Speaker.Bot)).length

theorem userMsgs_append (h l : Transcript) :
    userMsgs (h ++ l) = userMsgs h ++ userMsgs l := by
  simp [userMsgs, List.filter_append]

theorem userMsgs_concat_user (h : Transcript) (i : String) :
    userMsgs (h ++ [(Speaker.User, i)]) = userMsgs h ++ [i] := by
  simp [userMsgs_append, userMsgs]

theorem userMsgs_concat_bot (h : Transcript) (m : String) :
    userMsgs (h ++ [(Speaker.Bot, m)]) = userMsgs h := by
  simp [userMsgs_append, userMsgs]

theorem botCount_append (h l : Transcript) :
    botCount (h ++ l) = botCount h + botCount l := by
  simp [botCount, List.filter_append]

theorem stage_eq_len (h : Transcript) :
    get_conversation_stage h = (userMsgs h).length := by
  simp only [get_conversation_stage]
  by_cases he : userMsgs h = [] <;> simp [he]

theorem stage_concat_user (h : Transcript) (i : String) :
    get_conversation_stage (h ++ [(Speaker.User, i)]) = (userMsgs h).length + 1 := by
  rw [stage_eq_len, userMsgs_concat_user]
  simp

theorem stage_concat_bot (h : Transcript) (m : String) :
    get_conversation_stage (h ++ [(Speaker.Bot, m)]) = get_conversation_stage h := by
  rw [stage_eq_len, userMsgs_concat_bot, stage_eq_len]

theorem getD_append_lt {α : Type} (l l2 : List α) (i : Nat) (d : α)
    (hi : i < l.length) : (l ++ l2).getD i d = l.getD i d := by
  induction l generalizing i with
  | nil => simp at hi
  | cons a t ih =>
    cases i with
    | zero => rfl
    | succ n => simpa using ih n (by simpa using hi)

theorem dropLast_concat_self {α : Type} (l : List α) (a : α) :
    (l ++ [a]).dropLast = l := by
  simp

theorem flow_empty (env : AuthEnv) (h : Transcript) :
    conversational_flow env h "" = h := rfl

theorem flow_reset_kw (env : AuthEnv) (h : Transcript) (input : String)
    (hne : input ≠ "")
    (hr : RESET_KEYWORDS.contains (pyLower input) = true) :
    conversational_flow env h input =
      [(Speaker.Bot, "Conversation restarted. Hi! How may I assist you?")] := by
  simp only [conversational_flow, hr]
  simp [hne]

theorem flow_s1_accept (env : AuthEnv) (h : Transcript) (input : String)
    (hne : input ≠ "") (hnr : RESET_KEYWORDS.contains (pyLower input) = false)
    (hlen : (userMsgs h).length = 0)
    (hc : (strContains (pyLower input) "appointment" ||
           strContains (pyLower input) "book") = true) :
    conversational_flow env h input =
      (h ++ [(Speaker.User, input)]) ++
        [(Speaker.Bot, "What is the purpose of the appointment?")] := by
  simp only [conversational_flow, hnr, stage_concat_user, hlen, hc]
  simp [hne]

theorem flow_s1_reject (env : AuthEnv) (h : Transcript) (input : String)
    (hne : input ≠ "") (hnr : RESET_KEYWORDS.contains (pyLower input) = false)
    (hlen : (userMsgs h).length = 0)
    (hc : (strContains (pyLower input) "appointment" ||
           strContains (pyLower input) "book") = false) :
    conversational_flow env h input =
      h ++ [(Speaker.Bot, "I can help you book an appointment. Please say \x27Book an appointment\x27 to start.")] := by
  simp only [conversational_flow, hnr, stage_concat_user, hlen, hc]
  simp [hne, dropLast_concat_self]

theorem flow_s2 (env : AuthEnv) (h : Transcript) (input : String)
    (hne : input ≠ "") (hnr : RESET_KEYWORDS.contains (pyLower input) = false)
    (hlen : (userMsgs h).length = 1) :
    conversational_flow env h input =
      (h ++ [(Speaker.User, input)]) ++
        [(Speaker.Bot, "Great! You want to create an event for \x27" ++ input ++
          "\x27. What is the date? (DD-MM-YYYY)")] := by
  simp only [conversational_flow, hnr, stage_concat_user, hlen]
  simp [hne]

theorem flow_s3_accept (env : AuthEnv) (h : Transcript) (input : String)
    (hne : input ≠ "") (hnr : RESET_KEYWORDS.contains (pyLower input) = false)
    (hlen : (userMsgs h).length = 2)
    (hd : ((pySplitHyphen input).length != 3 ||
           !(pySplitHyphen input).all pyIsDigit) = false) :
    conversational_flow env h input =
      (h ++ [(Speaker.User, input)]) ++
        [(Speaker.Bot, "What is the start time? (HH:MM AM/PM)")] := by
  simp only [conversational_flow, hnr, stage_concat_user, hlen, hd]
  simp [hne]

theorem flow_s3_reject (env : AuthEnv) (h : Transcript) (input : String)
    (hne : input ≠ "") (hnr : RESET_KEYWORDS.contains (pyLower input) = false)
    (hlen : (userMsgs h).length = 2)
    (hd : ((pySplitHyphen input).length != 3 ||
           !(pySplitHyphen input).all pyIsDigit) = true) :
    conversational_flow env h input =
      h ++ [(Speaker.Bot, "Invalid date format: Date must be in DD-MM-YYYY format. Please enter the date in DD-MM-YYYY format.")] := by
  simp only [conversational_flow, hnr, stage_concat_user, hlen, hd]
  simp [hne, dropLast_concat_self]

theorem flow_s4_accept (env : AuthEnv) (h : Transcript) (input : String)
    (p : Nat × Nat)
    (hne : input ≠ "") (hnr : RESET_KEYWORDS.contains (pyLower input) = false)
    (hlen : (userMsgs h).length = 3)
    (ht : pyStrptimeIMp (pyUpper (pyStrip input)) = some p) :
    conversational_flow env h input =
      (h ++ [(Speaker.User, input)]) ++
        [(Speaker.Bot, "What is the end time? (HH:MM AM/PM)")] := by
  simp only [conversational_flow, hnr, stage_concat_user, hlen, ht]
  simp [hne]

theorem flow_s4_reject (env : AuthEnv) (h : Transcript) (input : String)
    (hne : input ≠ "") (hnr : RESET_KEYWORDS.contains (pyLower input) = false)
    (hlen : (userMsgs h).length = 3)
    (ht : pyStrptimeIMp (pyUpper (pyStrip input)) = none) :
    conversational_flow env h input =
      h ++ [(Speaker.Bot, "Invalid time format. Please enter the time in HH:MM AM/PM format (e.g., 02:30 PM).")] := by
  simp only [conversational_flow, hnr, stage_concat_user, hlen, ht]
  simp [hne, dropLast_concat_self]

theorem flow_s5_badparse_start (env : AuthEnv) (h : Transcript)
    (input e : String)
    (hne : input ≠ "") (hnr : RESET_KEYWORDS.contains (pyLower input) = false)
    (hlen : (userMsgs h).length = 4)
    (hp : parse_date_time ((userMsgs h).getD 2 "") ((userMsgs h).getD 3 "") =
      Except.error e) :
    conversational_flow env h input =
      h ++ [(Speaker.Bot, "Invalid time: " ++ e ++ ". Please enter a valid end time in HH:MM AM/PM format.")] := by
  have g2 : (userMsgs h ++ [input]).getD 2 "" = (userMsgs h).getD 2 "" :=
    getD_append_lt _ _ _ _ (by omega)
  have g3 : (userMsgs h ++ [input]).getD 3 "" = (userMsgs h).getD 3 "" :=
    getD_append_lt _ _ _ _ (by omega)
  simp only [conversational_flow, hnr, stage_concat_user, hlen,
    userMsgs_concat_user, g2, g3, hp]
  simp [hne, dropLast_concat_self]

theorem flow_s5_badparse_end (env : AuthEnv) (h : Transcript)
    (input e : String) (st : PyDateTime)
    (hne : input ≠ "") (hnr : RESET_KEYWORDS.contains (pyLower input) = false)
    (hlen : (userMsgs h).length = 4)
    (hp1 : parse_date_time ((userMsgs h).getD 2 "") ((userMsgs h).getD 3 "") =
      Except.ok st)
    (hp2 : parse_date_time ((userMsgs h).getD 2 "") input = Except.error e) :
    conversational_flow env h input =
      h ++ [(Speaker.Bot, "Invalid time: " ++ e ++ ". Please enter a valid end time in HH:MM AM/PM format.")] := by
  have g2 : (userMsgs h ++ [input]).getD 2 "" = (userMsgs h).getD 2 "" :=
    getD_append_lt _ _ _ _ (by omega)
  have g3 : (userMsgs h ++ [input]).getD 3 "" = (userMsgs h).getD 3 "" :=
    getD_append_lt _ _ _ _ (by omega)
  simp only [conversational_flow, hnr, stage_concat_user, hlen,
    userMsgs_concat_user, g2, g3, hp1, hp2]
  simp [hne, dropLast_concat_self]

theorem flow_s5_reject_order (env : AuthEnv) (h : Transcript)
    (input : String) (st et : PyDateTime)
    (hne : input ≠ "") (hnr : RESET_KEYWORDS.contains (pyLower input) = false)
    (hlen : (userMsgs h).length = 4)
    (hp1 : parse_date_time ((userMsgs h).getD 2 "") ((userMsgs h).getD 3 "") =
      Except.ok st)
    (hp2 : parse_date_time ((userMsgs h).getD 2 "") input = Except.ok et)
    (hord : pyDateTimeLE et st = true) :
    conversational_flow env h input =
      h ++ [(Speaker.Bot, "Invalid time: End time must be after start time. Please enter a valid end time in HH:MM AM/PM format.")] := by
  have g2 : (userMsgs h ++ [input]).getD 2 "" = (userMsgs h).getD 2 "" :=
    getD_append_lt _ _ _ _ (by omega)
  have g3 : (userMsgs h ++ [input]).getD 3 "" = (userMsgs h).getD 3 "" :=
    getD_append_lt _ _ _ _ (by omega)
  simp only [conversational_flow, hnr, stage_concat_user, hlen,
    userMsgs_concat_user, g2, g3, hp1, hp2, hord]
  simp [hne, dropLast_concat_self]

theorem flow_s5_gateway_error (env : AuthEnv) (h : Transcript)
    (input e : String) (st et : PyDateTime)
    (hne : input ≠ "") (hnr : RESET_KEYWORDS.contains (pyLower input) = false)
    (hlen : (userMsgs h).length = 4)
    (hp1 : parse_date_time ((userMsgs h).getD 2 "") ((userMsgs h).getD 3 "") =
      Except.ok st)
    (hp2 : parse_date_time ((userMsgs h).getD 2 "") input = Except.ok et)
    (hord : pyDateTimeLE et st = false)
    (hgw : gateway_book env ((userMsgs h).getD 1 "") st et = Except.error e) :
    conversational_flow env h input =
      (h ++ [(Speaker.User, input)]) ++ [(Speaker.Bot, "Error: " ++ e)] := by
  have g1 : (userMsgs h ++ [input]).getD 1 "" = (userMsgs h).getD 1 "" :=
    getD_append_lt _ _ _ _ (by omega)
  have g2 : (userMsgs h ++ [input]).getD 2 "" = (userMsgs h).getD 2 "" :=
    getD_append_lt _ _ _ _ (by omega)
  have g3 : (userMsgs h ++ [input]).getD 3 "" = (userMsgs h).getD 3 "" :=
    getD_append_lt _ _ _ _ (by omega)
  simp only [conversational_flow, hnr, stage_concat_user, hlen,
    userMsgs_concat_user, g1, g2, g3, hp1, hp2, hord, hgw]
  simp [hne]

theorem flow_s5_success (env : AuthEnv) (h : Transcript)
    (input result : String) (st et : PyDateTime)
    (hne : input ≠ "") (hnr : RESET_KEYWORDS.contains (pyLower input) = false)
    (hlen : (userMsgs h).length = 4)
    (hp1 : parse_date_time ((userMsgs h).getD 2 "") ((userMsgs h).getD 3 "") =
      Except.ok st)
    (hp2 : parse_date_time ((userMsgs h).getD 2 "") input = Except.ok et)
    (hord : pyDateTimeLE et st = false)
    (hgw : gateway_book env ((userMsgs h).getD 1 "") st et = Except.ok result) :
    conversational_flow env h input =
      (h ++ [(Speaker.User, input)]) ++ [(Speaker.Bot, result),
        (Speaker.Bot, "Do you need to book any other appointments? (yes/no)")] := by
  have g1 : (userMsgs h ++ [input]).getD 1 "" = (userMsgs h).getD 1 "" :=
    getD_append_lt _ _ _ _ (by omega)
  have g2 : (userMsgs h ++ [input]).getD 2 "" = (userMsgs h).getD 2 "" :=
    getD_append_lt _ _ _ _ (by omega)
  have g3 : (userMsgs h ++ [input]).getD 3 "" = (userMsgs h).getD 3 "" :=
    getD_append_lt _ _ _ _ (by omega)
  simp only [conversational_flow, hnr, stage_concat_user, hlen,
    userMsgs_concat_user, g1, g2, g3, hp1, hp2, hord, hgw]
  simp [hne]

theorem flow_s6_yes (env : AuthEnv) (h : Transcript) (input : String)
    (hlen : (userMsgs h).length = 5) (hy : (pyLower input) = "yes") :
    conversational_flow env h input =
      [(Speaker.Bot, "Hi! How may I assist you?")] := by
  have hne : input ≠ "" := by
    intro h0
    rw [h0] at hy
    exact absurd hy (by decide)
  have hnr : RESET_KEYWORDS.contains (pyLower input) = false := by
    rw [hy]
    rfl
  simp only [conversational_flow, hnr, stage_concat_user, hlen]
  simp [hne, hy]

theorem flow_s6_no (env : AuthEnv) (h : Transcript) (input : String)
    (hlen : (userMsgs h).length = 5) (hn : (pyLower input) = "no") :
    conversational_flow env h input =
      (h ++ [(Speaker.User, input)]) ++
        [(Speaker.Bot, "Thank you! Have a nice day.")] := by
  have hne : input ≠ "" := by
    intro h0
    rw [h0] at hn
    exact absurd hn (by decide)
  have hnr : RESET_KEYWORDS.contains (pyLower input) = false := by
    rw [hn]
    rfl
  simp only [conversational_flow, hnr, stage_concat_user, hlen]
  simp [hne, hn]

theorem flow_s6_reject (env : AuthEnv) (h : Transcript) (input : String)
    (hne : input ≠ "") (hnr : RESET_KEYWORDS.contains (pyLower input) = false)
    (hlen : (userMsgs h).length = 5)
    (hy : (pyLower input) ≠ "yes") (hn : (pyLower input) ≠ "no") :
    conversational_flow env h input =
      h ++ [(Speaker.Bot, "Please answer with \x27yes\x27 or \x27no\x27.")] := by
  simp only [conversational_flow, hnr, stage_concat_user, hlen, hy, hn]
  simp [hne, hy, hn, dropLast_concat_self]

theorem flow_fallthrough (env : AuthEnv) (h : Transcript) (input : String)
    (hne : input ≠ "") (hnr : RESET_KEYWORDS.contains (pyLower input) = false)
    (hlen : 6 ≤ (userMsgs h).length) :
    conversational_flow env h input = h ++ [(Speaker.User, input)] := by
  have c1 : ((userMsgs h).length + 1 = 1) = False := eq_false (by omega)
  have c2 : ((userMsgs h).length + 1 = 2) = False := eq_false (by omega)
  have c3 : ((userMsgs h).length + 1 = 3) = False := eq_false (by omega)
  have c4 : ((userMsgs h).length + 1 = 4) = False := eq_false (by omega)
  have c5 : ((userMsgs h).length + 1 = 5) = False := eq_false (by omega)
  have c6 : ((userMsgs h).length + 1 = 6) = False := eq_false (by omega)
  simp only [conversational_flow, hnr, stage_concat_user, c1, c2, c3, c4, c5, c6]
  simp [hne]

/-- The stage-1 rejection condition: the input mentions neither
"appointment" nor "book". -/
def stage1_rejects (input : String) : Bool :=
  !(strContains (pyLower input) "appointment" ||
    strContains (pyLower input) "book")

/-- The stage-3 rejection condition: the input is not three hyphen-separated
digit-only tokens. -/
def stage3_rejects (input : String) : Bool :=
  (pySplitHyphen input).length != 3 || !(pySplitHyphen input).all pyIsDigit

/-- The stage-4 rejection condition: the input does not parse as a
`%I:%M %p` time. -/
def stage4_rejects (input : String) : Bool :=
  (pyStrptimeIMp (pyUpper (pyStrip input))).isNone

/-- The stage-5 rejection condition: reconstructing the booking from the
transcript and the new end-time input fails to parse, or the end time is
not after the start time. -/
def stage5_rejects (history : Transcript) (input : String) : Bool :=
  match parse_date_time ((userMsgs history).getD 2 "")
      ((userMsgs history).getD 3 "") with
  | Except.error _ => true
  | Except.ok st =>
    match parse_date_time ((userMsgs history).getD 2 "") input with
    | Except.error _ => true
    | Except.ok et => pyDateTimeLE et st

/-- The stage-6 rejection condition: the input is neither "yes" nor "no". -/
def stage6_rejects (input : String) : Bool :=
  !(pyLower input == "yes") && !(pyLower input == "no")

/-- Environment in which `token.pickle` does not exist and
`credentials.json` is missing: authentication cannot proceed. -/
def envNoCreds : AuthEnv :=
  { tokenPickle := none, credentialsJsonExists := false,
    flowOutcome := Except.error "flow failed", insertOutcome := Except.ok () }

/-- A transcript reached by the happy path up to the end-time prompt
(four User turns). -/
def T4 : Transcript :=
  [(Speaker.Bot, "Hi! How may I assist you?"),
   (Speaker.User, "book an appointment"),
   (Speaker.Bot, "What is the purpose of the appointment?"),
   (Speaker.User, "Dentist"),
   (Speaker.Bot, "Great! You want to create an event for \x27Dentist\x27. What is the date? (DD-MM-YYYY)"),
   (Speaker.User, "15-06-2024"),
   (Speaker.Bot, "What is the start time? (HH:MM AM/PM)"),
   (Speaker.User, "02:00 PM"),
   (Speaker.Bot, "What is the end time? (HH:MM AM/PM)")]

/-- Like `T4` but with the syntactically valid, calendar-invalid date
"31-02-2024" as the third User turn. -/
def T4bad : Transcript :=
  [(Speaker.Bot, "Hi! How may I assist you?"),
   (Speaker.User, "book an appointment"),
   (Speaker.Bot, "What is the purpose of the appointment?"),
   (Speaker.User, "Dentist"),
   (Speaker.Bot, "Great! You want to create an event for \x27Dentist\x27. What is the date? (DD-MM-YYYY)"),
   (Speaker.User, "31-02-2024"),
   (Speaker.Bot, "What is the start time? (HH:MM AM/PM)"),
   (Speaker.User, "02:00 PM"),
   (Speaker.Bot, "What is the end time? (HH:MM AM/PM)")]

/-- A transcript reached after a successful booking: five User turns,
awaiting the yes/no confirmation. -/
def T5 : Transcript :=
  T4 ++ [(Speaker.User, "03:00 PM"),
    (Speaker.Bot, "Event \"Dentist\" created successfully!"),
    (Speaker.Bot, "Do you need to book any other appointments? (yes/no)")]

/-- The transcript after answering "no" at the confirmation stage: six
User turns, closed by the thank-you turn. -/
def T6no : Transcript :=
  T5 ++ [(Speaker.User, "no"), (Speaker.Bot, "Thank you! Have a nice day.")]

/-- C1: For every transcript, at any stage, and every input whose lowercase
form is exactly "restart", "start over", or "reset", `conversational_flow`
returns the canonical single-greeting transcript consisting of exactly one
Bot turn ("Conversation restarted. Hi! How may I assist you?"), regardless
of the transcript's prior contents. -/
theorem C1_reset_override (env : AuthEnv) (history : Transcript)
    (input : String) (hkw : pyLower input ∈ RESET_KEYWORDS) :
    conversational_flow env history input =
      [(Speaker.Bot, "Conversation restarted. Hi! How may I assist you?")] := by
  have hne : input ≠ "" := by
    intro h0
    rw [h0] at hkw
    revert hkw
    decide
  apply flow_reset_kw env history input hne
  simpa using hkw

/-- Witness for C1: the reset keyword "RESTART" (uppercase) wipes a
mid-booking transcript down to the single greeting turn. -/
theorem C1_reset_override_witness :
    conversational_flow envNoCreds T4 "RESTART" =
      [(Speaker.Bot, "Conversation restarted. Hi! How may I assist you?")] :=
  C1_reset_override envNoCreds T4 "RESTART" (by decide)

/-- C3 counterexample: `parse_date_time("31-02-2024", "02:30 PM")` does not
succeed — the `datetime` constructor range-checks the fields and raises
`ValueError("day is out of range for month")`, so no composite timestamp
with day=31 and month=2 is returned. -/
theorem C3_counterexample_feb31_rejected :
    parse_date_time "31-02-2024" "02:30 PM" =
      Except.error "day is out of range for month" := rfl

/-- C3 amended: `parse_date_time` itself performs no range validation of the
day and month fields — whenever the date splits into three int-convertible
tokens and the time parses, its result is exactly whatever the `datetime`
constructor yields, and it is that constructor which range-checks
day/month, so "31-02-2024" with a well-formed time fails with
"day is out of range for month" instead of returning a day=31/month=2
timestamp. -/
theorem C3_parse_defers_range_validation (dateStr timeStr : String)
    (dayS monthS yearS : String) (d m y : Int) (hr mi : Nat)
    (hsplit : pySplitHyphen dateStr = [dayS, monthS, yearS])
    (hd : pyInt dayS = Except.ok d) (hm : pyInt monthS = Except.ok m)
    (hy : pyInt yearS = Except.ok y)
    (ht : pyStrptimeIMp (pyUpper (pyStrip timeStr)) = some (hr, mi)) :
    parse_date_time dateStr timeStr = mkDatetime y m d hr mi := by
  simp only [parse_date_time, hsplit]
  simp [hd, hm, hy, ht]

/-- Witness for C3 (amended): at "31-02-2024" / "02:30 PM" the parser hands
day=31, month=2, year=2024, 14:30 to the datetime constructor, which
rejects the day. -/
theorem C3_parse_defers_range_validation_witness :
    parse_date_time "31-02-2024" "02:30 PM" = mkDatetime 2024 2 31 14 30 ∧
    mkDatetime 2024 2 31 14 30 =
      Except.error "day is out of range for month" :=
  ⟨C3_parse_defers_range_validation "31-02-2024" "02:30 PM" "31" "02" "2024"
      31 2 2024 14 30 rfl rfl rfl rfl rfl, rfl⟩

/-- C4 counterexample: "aa-bb-cc" splits into exactly three hyphen tokens
that are not integers; `parse_date_time` fails, but with the Python
`int()`-conversion message, not "Date must be in DD-MM-YYYY format". -/
theorem C4_counterexample_int_literal_error :
    parse_date_time "aa-bb-cc" "02:30 PM" =
      Except.error "invalid literal for int() with base 10: \x27aa\x27" ∧
    "invalid literal for int() with base 10: \x27aa\x27" ≠
      "Date must be in DD-MM-YYYY format" :=
  ⟨rfl, by decide⟩

/-- C4 amended: when the date string does not split into exactly three
hyphen-delimited tokens (for example "15/06/2024"), `parse_date_time`
fails with "Date must be in DD-MM-YYYY format" for every time string;
when it does split into three tokens but a token is not an integer
literal, the failure carries Python's int()-conversion message instead. -/
theorem C4_wrong_token_count_format_error (dateStr timeStr : String)
    (hlen : (pySplitHyphen dateStr).length ≠ 3) :
    parse_date_time dateStr timeStr =
      Except.error "Date must be in DD-MM-YYYY format" := by
  simp only [parse_date_time]
  rw [if_pos hlen]

/-- Witness for C4 (amended): the wrong delimiter in "15/06/2024" yields
one token and the format error. -/
theorem C4_wrong_token_count_format_error_witness :
    parse_date_time "15/06/2024" "02:30 PM" =
      Except.error "Date must be in DD-MM-YYYY format" :=
  C4_wrong_token_count_format_error "15/06/2024" "02:30 PM" (by decide)

/-- C2: for every transcript the stage equals the count of User turns
(0 before any user input), and after every rejecting transition of
`conversational_flow` (invalid intent at stage 1, invalid date at stage 3,
invalid time at stage 4, order/parse failure at stage 5, non-yes/no at
stage 6) the User-turn count — and hence the stage — equals its value
before the rejected input was supplied. -/
theorem C2_stage_derivation_and_rollback (env : AuthEnv)
    (history : Transcript) (input : String)
    (hne : input ≠ "")
    (hnr : RESET_KEYWORDS.contains (pyLower input) = false)
    (hrej :
      ((userMsgs history).length = 0 ∧ stage1_rejects input = true) ∨
      ((userMsgs history).length = 2 ∧ stage3_rejects input = true) ∨
      ((userMsgs history).length = 3 ∧ stage4_rejects input = true) ∨
      ((userMsgs history).length = 4 ∧ stage5_rejects history input = true) ∨
      ((userMsgs history).length = 5 ∧ stage6_rejects input = true)) :
    (∀ T : Transcript, get_conversation_stage T = (userMsgs T).length) ∧
    get_conversation_stage (conversational_flow env history input) =
      get_conversation_stage history := by
  refine ⟨stage_eq_len, ?_⟩
  rcases hrej with ⟨hlen, hr⟩ | ⟨hlen, hr⟩ | ⟨hlen, hr⟩ | ⟨hlen, hr⟩ | ⟨hlen, hr⟩
  · have hc : (strContains (pyLower input) "appointment" ||
        strContains (pyLower input) "book") = false := by
      unfold stage1_rejects at hr
      rwa [Bool.not_eq_true'] at hr
    rw [flow_s1_reject env history input hne hnr hlen hc]
    exact stage_concat_bot history _
  · have hc : ((pySplitHyphen input).length != 3 ||
        !(pySplitHyphen input).all pyIsDigit) = true := hr
    rw [flow_s3_reject env history input hne hnr hlen hc]
    exact stage_concat_bot history _
  · have ht : pyStrptimeIMp (pyUpper (pyStrip input)) = none := by
      unfold stage4_rejects at hr
      rwa [Option.isNone_iff_eq_none] at hr
    rw [flow_s4_reject env history input hne hnr hlen ht]
    exact stage_concat_bot history _
  · unfold stage5_rejects at hr
    cases hp1 : parse_date_time ((userMsgs history).getD 2 "")
        ((userMsgs history).getD 3 "") with
    | error e =>
      rw [flow_s5_badparse_start env history input e hne hnr hlen hp1]
      exact stage_concat_bot history _
    | ok st =>
      rw [hp1] at hr
      cases hp2 : parse_date_time ((userMsgs history).getD 2 "") input with
      | error e =>
        rw [flow_s5_badparse_end env history input e st hne hnr hlen hp1 hp2]
        exact stage_concat_bot history _
      | ok et =>
        rw [hp2] at hr
        rw [flow_s5_reject_order env history input st et hne hnr hlen hp1 hp2 hr]
        exact stage_concat_bot history _
  · have hyn : pyLower input ≠ "yes" ∧ pyLower input ≠ "no" := by
      unfold stage6_rejects at hr
      constructor <;> intro h0 <;> rw [h0] at hr <;> revert hr <;> decide
    rw [flow_s6_reject env history input hne hnr hlen hyn.1 hyn.2]
    exact stage_concat_bot history _

/-- Witness for C2: the invalid first input "hello" is rejected at stage 1
and the stage stays 0. -/
theorem C2_stage_derivation_and_rollback_witness :
    get_conversation_stage (conversational_flow envNoCreds
      [(Speaker.Bot, "Hi! How may I assist you?")] "hello") =
    get_conversation_stage [(Speaker.Bot, "Hi! How may I assist you?")] :=
  (C2_stage_derivation_and_rollback envNoCreds
    [(Speaker.Bot, "Hi! How may I assist you?")] "hello"
    (by decide) (by decide) (Or.inl ⟨by decide, by decide⟩)).2

/-- C5 counterexample: with `credentials.json` missing and no cached
credential (`envNoCreds`), the gateway-construction failure raised inside
`authenticate_google` IS caught by the stage-5 handler and converted into a
recoverable Bot "Error:" turn — the booking path is not halted, the
conversation continues with the transcript extended, contradicting the
claim that this error is process-fatal and never handled at stage 5. -/
theorem C5_counterexample_config_error_is_caught :
    conversational_flow envNoCreds T4 "03:00 PM" =
      T4 ++ [(Speaker.User, "03:00 PM"),
        (Speaker.Bot, "Error: Authentication failed: credentials.json file not found. Please download it from Google Cloud Console.")] := by
  decide

/-- C5 amended: when `credentials.json` is missing and no cached credential
exists, the error is raised at gateway construction (inside
`authenticate_google`, wrapped as "Authentication failed: ..."), but at
stage 5 it is caught by the `except Exception` handler like any other
gateway error and surfaced as a recoverable Bot "Error:" turn; the
conversation continues rather than halting. -/
theorem C5_config_error_surfaces_as_bot_turn (env : AuthEnv)
    (history : Transcript) (input : String) (st et : PyDateTime)
    (hne : input ≠ "")
    (hnr : RESET_KEYWORDS.contains (pyLower input) = false)
    (hlen : (userMsgs history).length = 4)
    (hp1 : parse_date_time ((userMsgs history).getD 2 "")
      ((userMsgs history).getD 3 "") = Except.ok st)
    (hp2 : parse_date_time ((userMsgs history).getD 2 "") input = Except.ok et)
    (hord : pyDateTimeLE et st = false)
    (htp : env.tokenPickle = none) (hcj : env.credentialsJsonExists = false) :
    conversational_flow env history input =
      (history ++ [(Speaker.User, input)]) ++
        [(Speaker.Bot, "Error: Authentication failed: credentials.json file not found. Please download it from Google Cloud Console.")] := by
  have hauth : authenticate_google env = Except.error
      "Authentication failed: credentials.json file not found. Please download it from Google Cloud Console." := by
    simp [authenticate_google, htp, hcj]
  have hgw : gateway_book env ((userMsgs history).getD 1 "") st et =
      Except.error "Authentication failed: credentials.json file not found. Please download it from Google Cloud Console." := by
    simp [gateway_book, hauth]
  exact flow_s5_gateway_error env history input _ st et hne hnr hlen hp1 hp2
    hord hgw

/-- Witness for C5 (amended) at the concrete transcript `T4` and end time
"03:00 PM" in the credential-free environment. -/
theorem C5_config_error_surfaces_as_bot_turn_witness :
    conversational_flow envNoCreds T4 "03:00 PM" =
      (T4 ++ [(Speaker.User, "03:00 PM")]) ++
        [(Speaker.Bot, "Error: Authentication failed: credentials.json file not found. Please download it from Google Cloud Console.")] :=
  C5_config_error_surfaces_as_bot_turn envNoCreds T4 "03:00 PM"
    ⟨2024, 6, 15, 14, 0⟩ ⟨2024, 6, 15, 15, 0⟩
    (by decide) (by decide) rfl rfl rfl rfl rfl rfl

/-- C6: when the gateway call at stage 5 fails, `conversational_flow`
appends a Bot error message but does not pop the just-appended User turn
and does not revert the stage: every turn appended before the failing
input is unchanged (the old transcript plus the new User turn is a prefix
of the result) and the User-turn count remains 5, unlike the format/order
rejection paths. -/
theorem C6_gateway_failure_keeps_user_turn (env : AuthEnv)
    (history : Transcript) (input e : String) (st et : PyDateTime)
    (hne : input ≠ "")
    (hnr : RESET_KEYWORDS.contains (pyLower input) = false)
    (hlen : (userMsgs history).length = 4)
    (hp1 : parse_date_time ((userMsgs history).getD 2 "")
      ((userMsgs history).getD 3 "") = Except.ok st)
    (hp2 : parse_date_time ((userMsgs history).getD 2 "") input = Except.ok et)
    (hord : pyDateTimeLE et st = false)
    (hgw : gateway_book env ((userMsgs history).getD 1 "") st et =
      Except.error e) :
    conversational_flow env history input =
      (history ++ [(Speaker.User, input)]) ++
        [(Speaker.Bot, "Error: " ++ e)] ∧
    (userMsgs (conversational_flow env history input)).length = 5 := by
  have hmain := flow_s5_gateway_error env history input e st et hne hnr hlen
    hp1 hp2 hord hgw
  refine ⟨hmain, ?_⟩
  rw [hmain, userMsgs_concat_bot, userMsgs_concat_user]
  simp [hlen]

/-- Witness for C6 at the concrete transcript `T4`: the failing gateway
leaves "03:00 PM" in place and the User-turn count at 5. -/
theorem C6_gateway_failure_keeps_user_turn_witness :
    conversational_flow envNoCreds T4 "03:00 PM" =
      (T4 ++ [(Speaker.User, "03:00 PM")]) ++
        [(Speaker.Bot, "Error: " ++
          "Authentication failed: credentials.json file not found. Please download it from Google Cloud Console.")] ∧
    (userMsgs (conversational_flow envNoCreds T4 "03:00 PM")).length = 5 :=
  C6_gateway_failure_keeps_user_turn envNoCreds T4 "03:00 PM"
    "Authentication failed: credentials.json file not found. Please download it from Google Cloud Console."
    ⟨2024, 6, 15, 14, 0⟩ ⟨2024, 6, 15, 15, 0⟩
    (by decide) (by decide) rfl rfl rfl rfl rfl

/-- C7 counterexample: at the stage-6 transcript `T5`, answering "yes" and
entering "restart" produce DIFFERENT transcripts — the greeting after "yes"
lacks the "Conversation restarted. " prefix — so the two invocations are
not equal as the claim states. -/
theorem C7_counterexample_reset_texts_differ :
    conversational_flow envNoCreds T5 "yes" ≠
      conversational_flow envNoCreds T5 "restart" := by
  decide

/-- C7 amended: at stage 6, "yes" performs a full reset to a stage-0
single-greeting transcript just as "restart" does, but the transcripts are
not equal: "yes" yields the greeting "Hi! How may I assist you?" while
"restart" yields "Conversation restarted. Hi! How may I assist you?". -/
theorem C7_yes_resets_with_different_greeting (env : AuthEnv)
    (history : Transcript) (hlen : (userMsgs history).length = 5) :
    conversational_flow env history "yes" =
      [(Speaker.Bot, "Hi! How may I assist you?")] ∧
    conversational_flow env history "restart" =
      [(Speaker.Bot, "Conversation restarted. Hi! How may I assist you?")] ∧
    get_conversation_stage (conversational_flow env history "yes") = 0 ∧
    get_conversation_stage (conversational_flow env history "restart") = 0 ∧
    conversational_flow env history "yes" ≠
      conversational_flow env history "restart" := by
  have h1 := flow_s6_yes env history "yes" hlen rfl
  have h2 := flow_reset_kw env history "restart" (by decide) (by decide)
  refine ⟨h1, h2, ?_, ?_, ?_⟩
  · rw [h1]
    rfl
  · rw [h2]
    rfl
  · rw [h1, h2]
    decide

/-- Witness for C7 (amended) at the concrete stage-6 transcript `T5`. -/
theorem C7_yes_resets_with_different_greeting_witness :
    conversational_flow envNoCreds T5 "yes" =
      [(Speaker.Bot, "Hi! How may I assist you?")] ∧
    conversational_flow envNoCreds T5 "restart" =
      [(Speaker.Bot, "Conversation restarted. Hi! How may I assist you?")] ∧
    get_conversation_stage (conversational_flow envNoCreds T5 "yes") = 0 ∧
    get_conversation_stage (conversational_flow envNoCreds T5 "restart") = 0 ∧
    conversational_flow envNoCreds T5 "yes" ≠
      conversational_flow envNoCreds T5 "restart" :=
  C7_yes_resets_with_different_greeting envNoCreds T5 (by decide)

/-- C8 counterexample: after "no" at stage 6 (`T6no`), the next non-reset
input "hello" is NOT rejected and re-prompted: it is appended as a User
turn with no Bot response, and the stage progresses beyond 6, to 7. -/
theorem C8_counterexample_stage_progresses_past_6 :
    conversational_flow envNoCreds T6no "hello" =
      T6no ++ [(Speaker.User, "hello")] ∧
    get_conversation_stage (conversational_flow envNoCreds T6no "hello") = 7 :=
  ⟨by decide, by decide⟩

/-- C8 amended: after "no" at stage 6 the machine does not idle-reject —
every subsequent non-empty non-reset input falls outside the dispatched
stages 1-6, is appended to the transcript with no Bot response, and the
derived stage advances beyond 6 by one per such input. -/
theorem C8_after_no_inputs_swallowed (env : AuthEnv) (history : Transcript)
    (input : String)
    (hne : input ≠ "")
    (hnr : RESET_KEYWORDS.contains (pyLower input) = false)
    (hlen : 6 ≤ (userMsgs history).length) :
    conversational_flow env history input =
      history ++ [(Speaker.User, input)] ∧
    get_conversation_stage (conversational_flow env history input) =
      (userMsgs history).length + 1 := by
  have h1 := flow_fallthrough env history input hne hnr hlen
  refine ⟨h1, ?_⟩
  rw [h1, stage_concat_user]

/-- Witness for C8 (amended) at the concrete post-"no" transcript `T6no`. -/
theorem C8_after_no_inputs_swallowed_witness :
    conversational_flow envNoCreds T6no "again" =
      T6no ++ [(Speaker.User, "again")] ∧
    get_conversation_stage (conversational_flow envNoCreds T6no "again") =
      (userMsgs T6no).length + 1 :=
  C8_after_no_inputs_swallowed envNoCreds T6no "again"
    (by decide) (by decide) (by decide)

/-- C9 counterexample: at `T6no` (six User turns) the non-empty non-reset
input "maybe" is left appended as a User turn while no Bot turn is added in
the same invocation — the conversation leaves a user turn without a
response, contradicting the claim. -/
theorem C9_counterexample_turn_left_unanswered :
    (userMsgs (conversational_flow envNoCreds T6no "maybe")).length =
      (userMsgs T6no).length + 1 ∧
    botCount (conversational_flow envNoCreds T6no "maybe") = botCount T6no :=
  ⟨by decide, by decide⟩

/-- C9 amended: restricted to transcripts with at most five User turns (so
the resulting stage is one the dispatcher handles), every invocation of
`conversational_flow` on a non-empty non-reset input that leaves the
(User, input) turn appended — observed as the User-turn count increasing by
one — also appends at least one Bot turn in the same invocation; with six
or more prior User turns the user turn is appended without a response. -/
theorem C9_user_turn_answered_up_to_stage6 (env : AuthEnv)
    (history : Transcript) (input : String)
    (hne : input ≠ "")
    (hnr : RESET_KEYWORDS.contains (pyLower input) = false)
    (hlen : (userMsgs history).length ≤ 5)
    (happ : (userMsgs (conversational_flow env history input)).length =
      (userMsgs history).length + 1) :
    botCount history + 1 ≤ botCount (conversational_flow env history input) := by
  have hcase : (userMsgs history).length = 0 ∨ (userMsgs history).length = 1 ∨
      (userMsgs history).length = 2 ∨ (userMsgs history).length = 3 ∨
      (userMsgs history).length = 4 ∨ (userMsgs history).length = 5 := by
    omega
  rcases hcase with h0 | h1 | h2 | h3 | h4 | h5
  · by_cases hc : (strContains (pyLower input) "appointment" ||
        strContains (pyLower input) "book") = true
    · rw [flow_s1_accept env history input hne hnr h0 hc]
      simp [botCount_append, botCount]
    · rw [flow_s1_reject env history input hne hnr h0
        (by rwa [Bool.not_eq_true] at hc)]
      simp [botCount_append, botCount]
  · rw [flow_s2 env history input hne hnr h1]
    simp [botCount_append, botCount]
  · by_cases hd : ((pySplitHyphen input).length != 3 ||
        !(pySplitHyphen input).all pyIsDigit) = true
    · rw [flow_s3_reject env history input hne hnr h2 hd]
      simp [botCount_append, botCount]
    · rw [flow_s3_accept env history input hne hnr h2
        (by rwa [Bool.not_eq_true] at hd)]
      simp [botCount_append, botCount]
  · cases ht : pyStrptimeIMp (pyUpper (pyStrip input)) with
    | none =>
      rw [flow_s4_reject env history input hne hnr h3 ht]
      simp [botCount_append, botCount]
    | some p =>
      rw [flow_s4_accept env history input p hne hnr h3 ht]
      simp [botCount_append, botCount]
  · cases hp1 : parse_date_time ((userMsgs history).getD 2 "")
        ((userMsgs history).getD 3 "") with
    | error e =>
      rw [flow_s5_badparse_start env history input e hne hnr h4 hp1]
      simp [botCount_append, botCount]
    | ok st =>
      cases hp2 : parse_date_time ((userMsgs history).getD 2 "") input with
      | error e =>
        rw [flow_s5_badparse_end env history input e st hne hnr h4 hp1 hp2]
        simp [botCount_append, botCount]
      | ok et =>
        by_cases hord : pyDateTimeLE et st = true
        · rw [flow_s5_reject_order env history input st et hne hnr h4 hp1 hp2
            hord]
          simp [botCount_append, botCount]
        · cases hgw : gateway_book env ((userMsgs history).getD 1 "") st et with
          | error e =>
            rw [flow_s5_gateway_error env history input e st et hne hnr h4
              hp1 hp2 (by rwa [Bool.not_eq_true] at hord) hgw]
            simp [botCount_append, botCount]
          | ok result =>
            rw [flow_s5_success env history input result st et hne hnr h4
              hp1 hp2 (by rwa [Bool.not_eq_true] at hord) hgw]
            simp [botCount_append, botCount]
  · by_cases hyes : pyLower input = "yes"
    · rw [flow_s6_yes env history input h5 hyes] at happ
      rw [h5] at happ
      simp [userMsgs] at happ
    · by_cases hno : pyLower input = "no"
      · rw [flow_s6_no env history input h5 hno]
        simp [botCount_append, botCount]
      · rw [flow_s6_reject env history input hne hnr h5 hyes hno]
        simp [botCount_append, botCount]

/-- Witness for C9 (amended): accepting the first input "book an
appointment" appends a Bot prompt along with the User turn. -/
theorem C9_user_turn_answered_up_to_stage6_witness :
    botCount [(Speaker.Bot, "Hi! How may I assist you?")] + 1 ≤
      botCount (conversational_flow envNoCreds
        [(Speaker.Bot, "Hi! How may I assist you?")] "book an appointment") :=
  C9_user_turn_answered_up_to_stage6 envNoCreds
    [(Speaker.Bot, "Hi! How may I assist you?")] "book an appointment"
    (by decide) (by decide) (by decide) (by decide)

/-- C10: if the transcript has four User turns whose third is a date string
that passes the stage-3 check (three hyphen-separated digit-only tokens)
but fails the datetime range check (e.g. "31-02-2024"), and the fourth (the
start time) is strptime-valid, then (a) every stage-5 invocation of
`conversational_flow`, for any non-empty non-reset end-time input, fails
inside `parse_date_time`'s timestamp construction with the constructor's
error, pops only the just-appended end-time turn (the result is the prior
transcript, invalid date turn retained, plus one Bot error turn — stage
reverts to 4), and (b) over any sequence of non-reset inputs the resulting
transcript is independent of the gateway environment — so the Calendar
Gateway is never invoked — and the User turns never change. -/
theorem C10_invalid_date_starves_gateway (env : AuthEnv)
    (history : Transcript) (dayS monthS yearS : String) (d m y : Int)
    (e : String) (hr mi : Nat)
    (hlen : (userMsgs history).length = 4)
    (hsplit : pySplitHyphen ((userMsgs history).getD 2 "") =
      [dayS, monthS, yearS])
    (hdigits : pyIsDigit dayS = true ∧ pyIsDigit monthS = true ∧
      pyIsDigit yearS = true)
    (hd : pyInt dayS = Except.ok d) (hm : pyInt monthS = Except.ok m)
    (hy : pyInt yearS = Except.ok y)
    (hbad : checkDateFields y m d = some e)
    (hstart : pyStrptimeIMp (pyUpper (pyStrip ((userMsgs history).getD 3 ""))) =
      some (hr, mi)) :
    (∀ input, input ≠ "" →
      RESET_KEYWORDS.contains (pyLower input) = false →
      conversational_flow env history input =
        history ++ [(Speaker.Bot, "Invalid time: " ++ e ++
          ". Please enter a valid end time in HH:MM AM/PM format.")]) ∧
    (∀ inputs : List String,
      (∀ i ∈ inputs, RESET_KEYWORDS.contains (pyLower i) = false) →
      ∀ envB : AuthEnv,
        List.foldl (conversational_flow env) history inputs =
          List.foldl (conversational_flow envB) history inputs ∧
        userMsgs (List.foldl (conversational_flow env) history inputs) =
          userMsgs history) := by
  have hparse : parse_date_time ((userMsgs history).getD 2 "")
      ((userMsgs history).getD 3 "") = Except.error e := by
    have hstart2 := hstart
    simp only [List.getD_eq_getElem?_getD] at hstart2
    simp only [parse_date_time, hsplit]
    simp [hd, hm, hy, hstart, hstart2, mkDatetime, hbad]
  have step : ∀ (T : Transcript), userMsgs T = userMsgs history →
      ∀ (envC : AuthEnv) (input : String), input ≠ "" →
      RESET_KEYWORDS.contains (pyLower input) = false →
      conversational_flow envC T input =
        T ++ [(Speaker.Bot, "Invalid time: " ++ e ++
          ". Please enter a valid end time in HH:MM AM/PM format.")] := by
    intro T hT envC input hne hnr
    exact flow_s5_badparse_start envC T input e hne hnr
      (by rw [hT]; exact hlen) (by rw [hT]; exact hparse)
  have key : ∀ (inputs : List String) (T : Transcript),
      userMsgs T = userMsgs history →
      (∀ i ∈ inputs, RESET_KEYWORDS.contains (pyLower i) = false) →
      ∀ envB : AuthEnv,
        List.foldl (conversational_flow env) T inputs =
          List.foldl (conversational_flow envB) T inputs ∧
        userMsgs (List.foldl (conversational_flow env) T inputs) =
          userMsgs T := by
    intro inputs
    induction inputs with
    | nil => exact fun T hT hall envB => ⟨rfl, rfl⟩
    | cons i rest ih =>
      intro T hT hall envB
      have hi : RESET_KEYWORDS.contains (pyLower i) = false :=
        hall i (by simp)
      have hrest : ∀ j ∈ rest, RESET_KEYWORDS.contains (pyLower j) = false :=
        fun j hj => hall j (by simp [hj])
      by_cases hie : i = ""
      · subst hie
        simp only [List.foldl_cons, flow_empty]
        have ihr := ih T hT hrest envB
        exact ⟨ihr.1, by rw [ihr.2]⟩
      · have h1 := step T hT env i hie hi
        have h2 := step T hT envB i hie hi
        have hT2 : userMsgs (T ++ [(Speaker.Bot, "Invalid time: " ++ e ++
            ". Please enter a valid end time in HH:MM AM/PM format.")]) =
            userMsgs history := by
          rw [userMsgs_concat_bot]
          exact hT
        have ihr := ih _ hT2 hrest envB
        constructor
        · simp only [List.foldl_cons, h1, h2]
          exact ihr.1
        · simp only [List.foldl_cons, h1]
          rw [ihr.2, userMsgs_concat_bot]
  exact ⟨fun input hne hnr => step history rfl env input hne hnr,
    fun inputs hall envB => key inputs history rfl hall envB⟩

/-- Witness for C10 at the concrete transcript `T4bad` (date "31-02-2024"):
the end time "03:00 PM" is popped and the construction error surfaces. -/
theorem C10_invalid_date_starves_gateway_witness :
    conversational_flow envNoCreds T4bad "03:00 PM" =
      T4bad ++ [(Speaker.Bot, "Invalid time: " ++
        "day is out of range for month" ++
        ". Please enter a valid end time in HH:MM AM/PM format.")] :=
  (C10_invalid_date_starves_gateway envNoCreds T4bad "31" "02" "2024"
      31 2 2024 "day is out of range for month" 14 0
      rfl rfl ⟨rfl, rfl, rfl⟩ rfl rfl rfl rfl rfl).1
    "03:00 PM" (by decide) (by decide)
